import Mathlib

/-!
Verification development for the source-controller fragment consisting of
`controllers/helmchart_controller.go` (the v1alpha1 HelmChart reconciler) and
`controllers/helmrepository_controller_test.go` (the tests of the v1beta1
HelmRepository reconciler).

The shallow embedding models:
- the artifact storage engine (paths, a file system as an association list,
  checksums, garbage collection, symlinks) — the `Storage` type itself is not
  part of the two source files, so its operations are modelled from the spec,
  with the test file pinning observable behavior;
- `HelmChartReconciler.sync`, `shouldResetStatus`, `gc` and the surrounding
  `Reconcile` control flow, translated from `helmchart_controller.go`;
- the HelmRepository sub-reconcilers `reconcileStorage`, `reconcileSource`
  and `reconcileArtifact`, whose implementations are not under the source
  fragment; they are modelled from the spec, constrained by the expectations
  of `TestHelmRepositoryReconciler_reconcileStorage`,
  `TestHelmRepository_reconcileSource` and
  `TestHelmRepositoryReconciler_reconcileArtifact`.

External collaborators (yaml parsing, the Helm index lookup, URL parsing,
HTTP getters, the Kubernetes secret store) are oracles supplied through
environment records, so every branch of the Go control flow is reachable in
the model.
-/

namespace SourceController

/-- A storage-relative path: the directory segments and the file name.
The spec fixes the layout `<kind>/<namespace>/<name>/<filename>`. -/
structure StoragePath where
  dir : List String
  file : String
deriving DecidableEq, Repr

/-- The storage root as a flat map from paths to file contents, modelled as
an association list with unique keys maintained by `fsWrite`. -/
abbrev FS := List (StoragePath × String)

/-- Look up the contents of the regular file at `p`, if present. -/
def fsLookup : FS → StoragePath → Option String
  | [], _ => none
  | (q, v) :: rest, p => if q = p then some v else fsLookup rest p

/-- Write contents `v` at path `p` (atomic rename: the map goes from the old
binding to the new one in one step, no partial contents are representable). -/
def fsWrite : FS → StoragePath → String → FS
  | [], p, v => [(p, v)]
  | (q, w) :: rest, p, v => if q = p then (p, v) :: rest else (q, w) :: fsWrite rest p v

/-- Symlinks: a map from link paths to target paths. -/
abbrev Links := List (StoragePath × StoragePath)

/-- (Re)point the link at `p` to target `t`, replacing any prior link. -/
def linksWrite : Links → StoragePath → StoragePath → Links
  | [], p, t => [(p, t)]
  | (q, w) :: rest, p, t => if q = p then (p, t) :: rest else (q, w) :: linksWrite rest p t

/-- Modelled from the spec: `removeAllButCurrent(current)` of the Storage
engine (not under the source fragment) deletes every file under the owning
directory of `current` except the file backing `current`; files in other
directories are untouched, and an already-absent sibling is skipped without
error (the operation is total). -/
def removeAllButCurrent : FS → StoragePath → FS
  | [], _ => []
  | (q, v) :: rest, cur =>
    if q.dir = cur.dir ∧ q ≠ cur then removeAllButCurrent rest cur
    else (q, v) :: removeAllButCurrent rest cur

/-- Modelled from the spec: the deterministic content digest of the Storage
engine (`Storage.Checksum`, not under the source fragment). The spec requires
a digest that is stable across calls and collision-free for deduplication;
the model idealizes collision-freeness by using an injective encoding of the
content. -/
def Checksum (data : String) : String := data

/-- Condition types used by the two reconcilers. -/
inductive CondType
  | ready
  | artifactOutdated
  | artifactUnavailable
  | fetchFailed
deriving DecidableEq, Repr

/-- Kubernetes condition status values. -/
inductive CondStatus
  | isTrue
  | isFalse
  | isUnknown
deriving DecidableEq, Repr

/-- A status condition: type, status, reason, message. -/
structure Condition where
  condType : CondType
  status : CondStatus
  reason : String
  message : String
deriving DecidableEq, Repr

/-- Upsert a condition by type: replace in place if the type is present,
else append (the deterministic upsert the spec requires). -/
def setCondition : List Condition → Condition → List Condition
  | [], c => [c]
  | c0 :: rest, c =>
    if c0.condType = c.condType then c :: rest else c0 :: setCondition rest c

/-- Remove every condition of the given type. -/
def deleteCondition : List Condition → CondType → List Condition
  | [], _ => []
  | c0 :: rest, t =>
    if c0.condType = t then deleteCondition rest t else c0 :: deleteCondition rest t

/-- The first condition of the given type, if any. -/
def getCondition : List Condition → CondType → Option Condition
  | [], _ => none
  | c0 :: rest, t => if c0.condType = t then some c0 else getCondition rest t

/-- An artifact record as it appears in a resource status. -/
structure Artifact where
  path : StoragePath
  url : String
  revision : String
  checksum : String
  lastUpdateTime : Nat
deriving DecidableEq, Repr

/-- The storage engine configuration visible to the model: the advertised
hostname from which public URLs are derived. -/
structure Storage where
  hostname : String
deriving DecidableEq, Repr

/-- Render a storage path as a POSIX-style relative string. -/
def pathString (p : StoragePath) : String :=
  String.intercalate "/" p.dir ++ "/" ++ p.file

/-- Modelled from the spec: the public URL of a path is the configured
hostname followed by the storage-relative path, recomputed from the current
configuration on every call. -/
def artifactURL (sto : Storage) (p : StoragePath) : String :=
  sto.hostname ++ "/" ++ pathString p

/-- Modelled from the spec: `Storage.ArtifactFor` (not under the source
fragment) maps kind, object metadata, file name and revision to an artifact
record rooted at `<kind>/<namespace>/<name>/<filename>` with its derived URL. -/
def ArtifactFor (sto : Storage) (kind ns name fileName revision : String) : Artifact :=
  { path := ⟨[kind, ns, name], fileName⟩
    url := artifactURL sto ⟨[kind, ns, name], fileName⟩
    revision := revision
    checksum := ""
    lastUpdateTime := 0 }

/-- Modelled from the spec: `Storage.NewArtifactFor` of the v1beta1 engine,
an `ArtifactFor` that also records the content checksum. -/
def NewArtifactFor (sto : Storage) (kind ns name fileName revision checksum : String) :
    Artifact :=
  { ArtifactFor sto kind ns name fileName revision with checksum := checksum }

def ChartPullFailedReason : String := "ChartPullFailed"
def ChartPullSucceededReason : String := "ChartPullSucceeded"
def StorageOperationFailedReason : String := "StorageOperationFailed"
def AuthenticationFailedReason : String := "AuthenticationFailed"
def InitializingReason : String := "Initializing"
def URLInvalidReason : String := "URLInvalid"
def FailedReason : String := "Failed"
def SucceededReason : String := "Succeeded"
def NewRevisionReason : String := "NewRevision"
def NoArtifactReason : String := "NoArtifact"

/-! ## The v1alpha1 HelmChart reconciler, from `helmchart_controller.go` -/

/-- Status of a HelmChart: at most one current artifact plus conditions. -/
structure HelmChartStatus where
  artifact : Option Artifact
  conditions : List Condition
deriving DecidableEq, Repr

/-- The fields of a HelmChart the reconciler reads:
kind and object metadata, `Spec.Name`, `Spec.Version`, the polling interval
and the observed status. -/
structure HelmChart where
  kind : String
  ns : String
  name : String
  specName : String
  specVersion : String
  interval : Nat
  status : HelmChartStatus
deriving DecidableEq, Repr

/-- The fields of the referenced HelmRepository that `sync` reads: object
metadata, `Spec.SecretRef` and the path of its published index artifact
(`Reconcile` only calls `sync` once `getChartRepositoryWithArtifact` has
checked that `Status.Artifact` is non-nil, so the path is carried directly). -/
structure HelmRepo where
  name : String
  ns : String
  secretRef : Option String
  artifactPath : StoragePath
deriving DecidableEq, Repr

/-- Modelled from the spec: `HelmChartNotReady` of the API package (not under
the source fragment) replaces the condition set with a single Ready=False
condition carrying the reason and message, leaving the rest of the status —
in particular the current artifact record — unchanged. -/
def HelmChartNotReady (chart : HelmChart) (reason message : String) : HelmChart :=
  { chart with status :=
      { chart.status with conditions := [⟨.ready, .isFalse, reason, message⟩] } }

/-- Modelled from the spec: `HelmChartReady` of the API package (not under
the source fragment) swaps the status artifact to the new record and replaces
the condition set with a single Ready=True condition. -/
def HelmChartReady (chart : HelmChart) (artifact : Artifact) (reason message : String) :
    HelmChart :=
  { chart with status :=
      { artifact := some artifact
        conditions := [⟨.ready, .isTrue, reason, message⟩] } }

/-- A chart version entry of the Helm repository index (`repo.ChartVersion`):
name, version and download URLs. -/
structure ChartVersion where
  name : String
  version : String
  urls : List String
deriving DecidableEq, Repr

/-- A parsed repository index; its internals are only inspected through the
external `indexGet` oracle, mirroring `repo.IndexFile.Get`. -/
structure IndexFile where
  entries : List (String × List ChartVersion)
deriving DecidableEq, Repr

/-- The error cases of `repo.IndexFile.Get` that `sync` distinguishes. -/
inductive IndexGetErr
  | noChartName
  | noChartVersion
  | other (msg : String)
deriving DecidableEq, Repr

/-- A parsed URL: the scheme and the remainder, mirroring what `sync` reads
from `url.Parse` (`u.Scheme` and `u.String()`). -/
structure URLRef where
  scheme : String
  rest : String
deriving DecidableEq, Repr

/-- `u.String()` of a parsed URL. -/
def urlString (u : URLRef) : String := u.scheme ++ "://" ++ u.rest

/-- An opaque Kubernetes secret: its data entries. -/
abbrev Secret := List (String × String)

/-- Observable storage and network events of one `sync` run, used to state
ordering properties (what runs under the artifact lock, whether the network
was contacted). -/
inductive Ev
  | httpGet (u : String)
  | mkdir (p : StoragePath)
  | lockAcq (p : StoragePath)
  | fileWrite (p : StoragePath)
  | symlink (p : StoragePath) (linkName : String)
  | unlock (p : StoragePath)
deriving DecidableEq, Repr

/-- Oracles for the external collaborators `sync` calls, plus success flags
for the storage operations (directory creation, lock acquisition, file write,
symlink creation), keyed by the artifact path they are applied to. -/
structure SyncEnv where
  parseIndex : String → Except String IndexFile
  indexGet : IndexFile → String → String → Except IndexGetErr ChartVersion
  parseURL : String → Except String URLRef
  getterByScheme : String → Except String Unit
  getSecret : String → String → Except String Secret
  clientOptionsFromSecret : Secret → Except String Unit
  httpGetBytes : String → Except String String
  readAll : String → Except String String
  mkdirOk : StoragePath → Bool
  lockOk : StoragePath → Bool
  writeOk : StoragePath → Bool
  symlinkOk : StoragePath → Bool

/-- Result of one `sync` run: the returned chart (with updated status), the
resulting file system and links, the event trace, and the returned error. -/
structure SyncOut where
  chart : HelmChart
  fs : FS
  links : Links
  trace : List Ev
  err : Option String
deriving DecidableEq, Repr

/-- The revision-and-checksum qualified file name `sync` builds for the
pulled chart: `<name>-<version>-<checksum>.tgz`. -/
def chartArtifactFileName (cv : ChartVersion) (chartBytes : String) : String :=
  cv.name ++ "-" ++ cv.version ++ "-" ++ Checksum chartBytes ++ ".tgz"

/-- The secret-resolution block of `sync` (lines 175–198): when the
repository has a `SecretRef`, fetch the secret and derive client options;
both failure cases surface as authentication errors. -/
def resolveClientOpts (env : SyncEnv) (repository : HelmRepo) : Except String Unit :=
  match repository.secretRef with
  | none => .ok ()
  | some secretName =>
    match env.getSecret repository.ns secretName with
    | .error e => .error ("auth secret error: " ++ e)
    | .ok secret =>
      match env.clientOptionsFromSecret secret with
      | .error e => .error ("auth options error: " ++ e)
      | .ok _ => .ok ()

/-- The persistence tail of `sync` (`helmchart_controller.go` lines 212–247):
compute the checksum-qualified artifact, `MkdirAll`, `Lock`, `WriteFile`,
`Symlink`, with the lock released when the function returns (the deferred
unlock). `getUrl` is the already-performed download, recorded at the head of
the trace. -/
def syncPersist (env : SyncEnv) (sto : Storage) (chart : HelmChart) (cv : ChartVersion)
    (chartBytes : String) (getUrl : String) (fs : FS) (links : Links) : SyncOut :=
  let artifact := ArtifactFor sto chart.kind chart.ns chart.name
    (chartArtifactFileName cv chartBytes) cv.version
  if env.mkdirOk artifact.path then
    if env.lockOk artifact.path then
      if env.writeOk artifact.path then
        let fs2 := fsWrite fs artifact.path chartBytes
        if env.symlinkOk artifact.path then
          let linkName := cv.name ++ "-latest.tgz"
          let links2 := linksWrite links ⟨artifact.path.dir, linkName⟩ artifact.path
          ⟨HelmChartReady chart artifact ChartPullSucceededReason
              ("Helm chart is available at: " ++ pathString artifact.path),
            fs2, links2,
            [.httpGet getUrl, .mkdir artifact.path, .lockAcq artifact.path,
              .fileWrite artifact.path, .symlink artifact.path linkName,
              .unlock artifact.path],
            none⟩
        else
          ⟨HelmChartNotReady chart StorageOperationFailedReason
              "storage error: unable to update symlink",
            fs2, links,
            [.httpGet getUrl, .mkdir artifact.path, .lockAcq artifact.path,
              .fileWrite artifact.path, .symlink artifact.path (cv.name ++ "-latest.tgz"),
              .unlock artifact.path],
            some "storage error: unable to update symlink"⟩
      else
        ⟨HelmChartNotReady chart ChartPullFailedReason "unable to write chart file",
          fs, links,
          [.httpGet getUrl, .mkdir artifact.path, .lockAcq artifact.path,
            .fileWrite artifact.path, .unlock artifact.path],
          some "unable to write chart file"⟩
    else
      ⟨HelmChartNotReady chart ChartPullFailedReason "unable to acquire lock",
        fs, links,
        [.httpGet getUrl, .mkdir artifact.path],
        some "unable to acquire lock"⟩
  else
    ⟨HelmChartNotReady chart ChartPullFailedReason "unable to create chart directory",
      fs, links,
      [.httpGet getUrl, .mkdir artifact.path],
      some "unable to create chart directory"⟩

/-- `HelmChartReconciler.sync`, translated branch by branch from
`helmchart_controller.go` lines 133–247: read the repository index file,
parse it, resolve the chart version, parse its first download URL, find a
getter, resolve credentials, download, then persist (`syncPersist`).
Failure reasons are those of the Go code: `StorageOperationFailed` for the
index read/parse and the symlink step, `AuthenticationFailed` for secret
resolution, `ChartPullFailed` for everything else. -/
def sync (env : SyncEnv) (sto : Storage) (repository : HelmRepo) (chart : HelmChart)
    (fs : FS) (links : Links) : SyncOut :=
  match fsLookup fs repository.artifactPath with
  | none =>
    ⟨HelmChartNotReady chart StorageOperationFailedReason
        "failed to read Helm repository index file",
      fs, links, [], some "failed to read Helm repository index file"⟩
  | some indexBytes =>
    match env.parseIndex indexBytes with
    | .error e => ⟨HelmChartNotReady chart StorageOperationFailedReason e, fs, links, [], some e⟩
    | .ok index =>
      match env.indexGet index chart.specName chart.specVersion with
      | .error ie =>
        let msg :=
          match ie with
          | .noChartName =>
            "chart " ++ chart.specName ++ " could not be found in Helm repository " ++
              repository.name
          | .noChartVersion =>
            "no chart with version " ++ chart.specVersion ++ " found for " ++ chart.specName
          | .other m => m
        ⟨HelmChartNotReady chart ChartPullFailedReason msg, fs, links, [], some msg⟩
      | .ok cv =>
        match cv.urls with
        | [] =>
          let msg := "chart " ++ cv.name ++ " has no downloadable URLs"
          ⟨HelmChartNotReady chart ChartPullFailedReason msg, fs, links, [], some msg⟩
        | ref :: _ =>
          match env.parseURL ref with
          | .error e =>
            let msg := "invalid chart URL format " ++ ref ++ ": " ++ e
            ⟨HelmChartNotReady chart ChartPullFailedReason msg, fs, links, [], some msg⟩
          | .ok u =>
            match env.getterByScheme u.scheme with
            | .error e => ⟨HelmChartNotReady chart ChartPullFailedReason e, fs, links, [], some e⟩
            | .ok _ =>
              match resolveClientOpts env repository with
              | .error msg =>
                ⟨HelmChartNotReady chart AuthenticationFailedReason msg, fs, links, [], some msg⟩
              | .ok _ =>
                match env.httpGetBytes (urlString u) with
                | .error e =>
                  ⟨HelmChartNotReady chart ChartPullFailedReason e, fs, links,
                    [.httpGet (urlString u)], some e⟩
                | .ok res =>
                  match env.readAll res with
                  | .error e =>
                    ⟨HelmChartNotReady chart ChartPullFailedReason e, fs, links,
                      [.httpGet (urlString u)], some e⟩
                  | .ok chartBytes =>
                    syncPersist env sto chart cv chartBytes (urlString u) fs links

/-- The initial status installed by `Reconcile` when `shouldResetStatus`
fires: a single Ready=Unknown condition with the Initializing reason and no
artifact record (the Go zero value of `HelmChartStatus`). -/
def initialChartStatus : HelmChartStatus :=
  ⟨none, [⟨.ready, .isUnknown, InitializingReason, ""⟩]⟩

/-- `HelmChartReconciler.shouldResetStatus` (lines 278–301): reset when the
recorded artifact has no backing file, or when the condition set is empty. -/
def shouldResetStatus (chart : HelmChart) (fs : FS) : Bool × HelmChartStatus :=
  (((match chart.status.artifact with
     | some a => (fsLookup fs a.path).isNone
     | none => false) : Bool)
    || chart.status.conditions.isEmpty,
   initialChartStatus)

/-- `HelmChartReconciler.gc` (lines 305–310): when the chart records an
artifact, remove every sibling revision but the current one. -/
def gc (chart : HelmChart) (fs : FS) : FS :=
  match chart.status.artifact with
  | some a => removeAllButCurrent fs a.path
  | none => fs

/-- `ctrl.Result`: the requeue flag and the requeue-after delay. -/
structure CtrlResult where
  requeue : Bool
  requeueAfter : Nat
deriving DecidableEq, Repr

/-- Environment of one `Reconcile` invocation: the `sync` oracles plus the
outcome of `getChartRepositoryWithArtifact` (covering the missing-reference,
get-error and missing-repository-artifact failure cases). Status updates are
taken to succeed; the claims under scrutiny do not involve status-write
failures. -/
structure ReconcileEnv where
  syncEnv : SyncEnv
  getRepo : Except String HelmRepo

/-- Result of one `Reconcile` pass: the scheduling result, the returned
error, every status value written to the resource (in order), and the final
storage state and trace. -/
structure ReconcileOut where
  result : CtrlResult
  err : Option String
  statusWrites : List HelmChartStatus
  fs : FS
  links : Links
  trace : List Ev
deriving DecidableEq, Repr

/-- `HelmChartReconciler.Reconcile` (lines 53–114): reset status when stale,
garbage-collect, resolve the referenced repository, `sync`, publish status;
failures requeue with `{Requeue: true}` and return the error, success
requeues after the chart polling interval. -/
def helmChartReconcile (env : ReconcileEnv) (sto : Storage) (chart0 : HelmChart)
    (fs : FS) (links : Links) : ReconcileOut :=
  let rs := shouldResetStatus chart0 fs
  let chart := if rs.1 then { chart0 with status := rs.2 } else chart0
  let writes0 : List HelmChartStatus := if rs.1 then [rs.2] else []
  let fs1 := gc chart fs
  match env.getRepo with
  | .error e =>
    let c2 := HelmChartNotReady chart ChartPullFailedReason e
    ⟨⟨true, 0⟩, some e, writes0 ++ [c2.status], fs1, links, []⟩
  | .ok repository =>
    let out := sync env.syncEnv sto repository chart fs1 links
    match out.err with
    | some e => ⟨⟨true, 0⟩, some e, writes0 ++ [out.chart.status], out.fs, out.links, out.trace⟩
    | none =>
      ⟨⟨false, chart0.interval⟩, none, writes0 ++ [out.chart.status], out.fs, out.links,
        out.trace⟩

/-- Whether an event is a lock acquisition. -/
def isLockAcq : Ev → Bool
  | .lockAcq _ => true
  | _ => false

/-- Whether an event is a lock release. -/
def isUnlock : Ev → Bool
  | .unlock _ => true
  | _ => false

/-- The events of a trace that happen strictly between the first lock
acquisition and the following lock release: the critical section. -/
def lockSection (tr : List Ev) : List Ev :=
  ((tr.dropWhile fun e => !isLockAcq e).drop 1).takeWhile fun e => !isUnlock e

/-! ## The v1beta1 HelmRepository reconciler

The implementations of `reconcileStorage`, `reconcileSource` and
`reconcileArtifact` are not part of the source fragment; only their tests
are. They are modelled from the spec (reconciliation state machine, §4.2),
with every observable expectation of the tests respected. -/

/-- Status of a HelmRepository: the current artifact, the advertised
stable-name URL, and conditions. -/
structure HelmRepositoryStatus where
  artifact : Option Artifact
  url : String
  conditions : List Condition
deriving DecidableEq, Repr

/-- The fields of a HelmRepository the sub-reconcilers read. -/
structure HelmRepository where
  name : String
  ns : String
  url : String
  interval : Nat
  secretRef : Option String
  status : HelmRepositoryStatus
deriving DecidableEq, Repr

/-- The HelmRepository kind string, used in artifact paths. -/
def HelmRepositoryKind : String := "helmrepository"

/-- Mark FetchFailed=True with the given reason and message. -/
def markFetchFailed (obj : HelmRepository) (reason msg : String) : HelmRepository :=
  let conds := setCondition obj.status.conditions ⟨.fetchFailed, .isTrue, reason, msg⟩
  { obj with status := { obj.status with conditions := conds } }

/-- Modelled from the spec: `HelmRepositoryReconciler.reconcileStorage` (not
under the source fragment; behavior pinned by
`TestHelmRepositoryReconciler_reconcileStorage`). Garbage-collect superseded
revisions of the recorded artifact; if the recorded artifact has no backing
file, assert ArtifactUnavailable, clear the stale record and request an
immediate bare requeue; otherwise rewrite the artifact URL from the current
hostname configuration and continue. -/
def reconcileStorage (sto : Storage) (obj : HelmRepository) (fs : FS) :
    HelmRepository × FS × CtrlResult × Option String :=
  match obj.status.artifact with
  | none => (obj, fs, ⟨false, 0⟩, none)
  | some a =>
    let fs1 := removeAllButCurrent fs a.path
    if (fsLookup fs1 a.path).isNone then
      let conds := setCondition obj.status.conditions
        ⟨.artifactUnavailable, .isTrue, NoArtifactReason, "No artifact for resource in storage"⟩
      ({ obj with status := { artifact := none, url := "", conditions := conds } },
        fs1, ⟨true, 0⟩, none)
    else
      let a1 : Artifact := { a with url := artifactURL sto a.path }
      ({ obj with status := { obj.status with artifact := some a1 } },
        fs1, ⟨false, 0⟩, none)

/-- Oracles for the external collaborators of `reconcileSource`. -/
structure SourceEnv where
  parseURL : String → Except String URLRef
  supportedSchemes : List String
  getSecret : String → String → Except String Secret
  clientOptionsFromSecret : Secret → Except String Unit
  tlsConfigFromSecret : Secret → Except String Unit
  downloadIndex : String → Except String (String × String)

/-- Credential resolution of `reconcileSource`: fetch the referenced secret,
derive client options, then the TLS configuration. Pinned by
`TestHelmRepository_reconcileSource`: a missing or malformed secret carries
the AuthenticationFailed reason, while invalid TLS/CA material carries the
generic Failed reason. -/
def resolveRepoOpts (env : SourceEnv) (obj : HelmRepository) : Except (String × String) Unit :=
  match obj.secretRef with
  | none => .ok ()
  | some s =>
    match env.getSecret obj.ns s with
    | .error e => .error (AuthenticationFailedReason, e)
    | .ok secret =>
      match env.clientOptionsFromSecret secret with
      | .error e => .error (AuthenticationFailedReason, e)
      | .ok _ =>
        match env.tlsConfigFromSecret secret with
        | .error e => .error (FailedReason, "failed to create TLS client config: " ++ e)
        | .ok _ => .ok ()

/-- Result of `reconcileSource`: the updated object, the candidate artifact
record together with the fetched index bytes on success, the scheduling
result and the returned error. -/
structure SourceOut where
  obj : HelmRepository
  candidate : Option (Artifact × String)
  result : CtrlResult
  err : Option String
deriving Repr

/-- Modelled from the spec: `HelmRepositoryReconciler.reconcileSource` (not
under the source fragment; behavior pinned by
`TestHelmRepository_reconcileSource`). Resolve credentials (on error:
FetchFailed and a non-nil error, before any network use); parse the remote
URL (invalid: FetchFailed/URLInvalid, nil error, zero result); check the
scheme (unsupported: FetchFailed/Failed, nil error, zero result); download
the index (transport failure: FetchFailed and a non-nil error, which the
runtime retries with backoff). On success clear FetchFailed, mark
ArtifactOutdated when the candidate checksum differs from the recorded one,
and produce the candidate artifact record. -/
def reconcileSource (env : SourceEnv) (sto : Storage) (obj0 : HelmRepository) : SourceOut :=
  match resolveRepoOpts env obj0 with
  | .error rm => ⟨markFetchFailed obj0 rm.1 rm.2, none, ⟨false, 0⟩, some rm.2⟩
  | .ok _ =>
    match env.parseURL obj0.url with
    | .error e => ⟨markFetchFailed obj0 URLInvalidReason e, none, ⟨false, 0⟩, none⟩
    | .ok u =>
      if u.scheme ∈ env.supportedSchemes then
        match env.downloadIndex (urlString u) with
        | .error e => ⟨markFetchFailed obj0 FailedReason e, none, ⟨false, 0⟩, some e⟩
        | .ok ri =>
          let sum := Checksum ri.2
          let conds1 := deleteCondition obj0.status.conditions .fetchFailed
          let obj1 := { obj0 with status := { obj0.status with conditions := conds1 } }
          let conds2 := setCondition conds1
            ⟨.artifactOutdated, .isTrue, NewRevisionReason, "New index revision"⟩
          let obj2 :=
            if (match obj1.status.artifact with
                | some a => decide (a.checksum ≠ sum)
                | none => true) then
              { obj1 with status := { obj1.status with conditions := conds2 } }
            else obj1
          let art := NewArtifactFor sto HelmRepositoryKind obj0.ns obj0.name
            ("index-" ++ ri.1 ++ ".yaml") ri.1 sum
          ⟨obj2, some (art, ri.2), ⟨false, obj0.interval⟩, none⟩
      else
        ⟨markFetchFailed obj0 FailedReason ("scheme " ++ u.scheme ++ " not supported"),
          none, ⟨false, 0⟩, none⟩

/-- Result of `reconcileArtifact`: the updated object, the storage state,
the scheduling result and the returned error. -/
structure ArtifactOut where
  obj : HelmRepository
  fs : FS
  links : Links
  result : CtrlResult
  err : Option String
deriving Repr

/-- Modelled from the spec: `HelmRepositoryReconciler.reconcileArtifact` (not
under the source fragment; behavior pinned by
`TestHelmRepositoryReconciler_reconcileArtifact`). If the recorded artifact
checksum equals the candidate checksum, reaffirm Ready and return without
touching the file system or the status URL; otherwise fail fast when the
fetched index is structurally empty, and else persist the index bytes at the
candidate path, update the stable-name symlink, swap the status artifact,
clear ArtifactOutdated and ArtifactUnavailable and assert Ready. -/
def reconcileArtifact (sto : Storage) (obj : HelmRepository) (artifact : Artifact)
    (index : Option String) (fs : FS) (links : Links) : ArtifactOut :=
  let readyConds := setCondition
    (deleteCondition (deleteCondition obj.status.conditions .artifactOutdated)
      .artifactUnavailable)
    ⟨.ready, .isTrue, SucceededReason, "Stored artifact for revision " ++ artifact.revision⟩
  if (match obj.status.artifact with
      | some cur => decide (cur.checksum = artifact.checksum)
      | none => false) then
    let obj1 := { obj with status := { obj.status with conditions := readyConds } }
    ⟨obj1, fs, links, ⟨false, obj.interval⟩, none⟩
  else
    match index with
    | none => ⟨obj, fs, links, ⟨false, 0⟩, some "no repository index to archive"⟩
    | some indexBytes =>
      let fs2 := fsWrite fs artifact.path indexBytes
      let linkPath : StoragePath := ⟨artifact.path.dir, "latest.tar.gz"⟩
      let links2 := linksWrite links linkPath artifact.path
      let obj1 := { obj with status :=
          { artifact := some artifact, url := artifactURL sto linkPath,
            conditions := readyConds } }
      ⟨obj1, fs2, links2, ⟨false, obj.interval⟩, none⟩

/-- One full HelmRepository reconciliation pass, composing the three
sub-reconcilers as the spec state machine prescribes: the pass stops at the
storage-consistency step on a requeue request, stops at the fetch step when
no candidate is produced, and otherwise runs the persistence step. -/
def helmRepoReconcile (env : SourceEnv) (sto : Storage) (obj : HelmRepository)
    (fs : FS) (links : Links) : ArtifactOut :=
  let so := reconcileStorage sto obj fs
  if so.2.2.1.requeue || so.2.2.2.isSome then ⟨so.1, so.2.1, links, so.2.2.1, so.2.2.2⟩
  else
    let fo := reconcileSource env sto so.1
    match fo.candidate with
    | none => ⟨fo.obj, so.2.1, links, fo.result, fo.err⟩
    | some ai => reconcileArtifact sto fo.obj ai.1 (some ai.2) so.2.1 links

/-! ## Helper lemmas -/

theorem fsLookup_fsWrite_self (fs : FS) (p : StoragePath) (v : String) :
    fsLookup (fsWrite fs p v) p = some v := by
  induction fs with
  | nil => simp [fsWrite, fsLookup]
  | cons e rest ih =>
    obtain ⟨q, w⟩ := e
    by_cases h : q = p
    · simp [fsWrite, h, fsLookup]
    · simp [fsWrite, h, fsLookup, ih]

theorem fsLookup_fsWrite_ne (fs : FS) (p q : StoragePath) (v : String) (h : q ≠ p) :
    fsLookup (fsWrite fs p v) q = fsLookup fs q := by
  induction fs with
  | nil => simp [fsWrite, fsLookup, Ne.symm h]
  | cons e rest ih =>
    obtain ⟨r, w⟩ := e
    by_cases hr : r = p
    · subst hr
      simp [fsWrite, fsLookup, Ne.symm h]
    · simp [fsWrite, hr, fsLookup, ih]

theorem fsLookup_removeAllButCurrent_current (fs : FS) (cur : StoragePath) :
    fsLookup (removeAllButCurrent fs cur) cur = fsLookup fs cur := by
  induction fs with
  | nil => rfl
  | cons e rest ih =>
    obtain ⟨q, v⟩ := e
    by_cases h : q.dir = cur.dir ∧ q ≠ cur
    · simp [removeAllButCurrent, h, fsLookup, h.2, ih]
    · simp [removeAllButCurrent, h, fsLookup, ih]

theorem fsLookup_removeAllButCurrent_sibling (fs : FS) (cur p : StoragePath)
    (hdir : p.dir = cur.dir) (hne : p ≠ cur) :
    fsLookup (removeAllButCurrent fs cur) p = none := by
  induction fs with
  | nil => rfl
  | cons e rest ih =>
    obtain ⟨q, v⟩ := e
    by_cases h : q.dir = cur.dir ∧ q ≠ cur
    · simp [removeAllButCurrent, h, ih]
    · have hq : q ≠ p := by
        intro he
        refine h ⟨?_, ?_⟩
        · rw [he]; exact hdir
        · rw [he]; exact hne
      simp [removeAllButCurrent, h, fsLookup, hq, ih]

theorem fsLookup_removeAllButCurrent_other (fs : FS) (cur p : StoragePath)
    (hdir : p.dir ≠ cur.dir) :
    fsLookup (removeAllButCurrent fs cur) p = fsLookup fs p := by
  induction fs with
  | nil => rfl
  | cons e rest ih =>
    obtain ⟨q, v⟩ := e
    by_cases h : q.dir = cur.dir ∧ q ≠ cur
    · have hq : q ≠ p := by
        intro he
        rw [he] at h
        exact hdir h.1
      simp [removeAllButCurrent, h, fsLookup, hq, ih]
    · simp [removeAllButCurrent, h, fsLookup, ih]

theorem removeAllButCurrent_idem (fs : FS) (cur : StoragePath) :
    removeAllButCurrent (removeAllButCurrent fs cur) cur = removeAllButCurrent fs cur := by
  induction fs with
  | nil => rfl
  | cons e rest ih =>
    obtain ⟨q, v⟩ := e
    by_cases h : q.dir = cur.dir ∧ q ≠ cur
    · simp [removeAllButCurrent, h, ih]
    · simp [removeAllButCurrent, h, ih]

theorem getCondition_setCondition_self (conds : List Condition) (c : Condition) :
    getCondition (setCondition conds c) c.condType = some c := by
  induction conds with
  | nil => simp [setCondition, getCondition]
  | cons c0 rest ih =>
    by_cases h : c0.condType = c.condType
    · simp [setCondition, h, getCondition]
    · simp [setCondition, h, getCondition, ih]

/-- When every step up to and including the download succeeds, `sync`
reaches its persistence tail. -/
theorem sync_stage (env : SyncEnv) (sto : Storage) (repo : HelmRepo) (chart : HelmChart)
    (fs : FS) (links : Links) (ib : String) (idx : IndexFile) (cv : ChartVersion)
    (ref : String) (rest : List String) (u : URLRef) (res chartBytes : String)
    (h1 : fsLookup fs repo.artifactPath = some ib)
    (h2 : env.parseIndex ib = .ok idx)
    (h3 : env.indexGet idx chart.specName chart.specVersion = .ok cv)
    (h4 : cv.urls = ref :: rest)
    (h5 : env.parseURL ref = .ok u)
    (h6 : env.getterByScheme u.scheme = .ok ())
    (h7 : resolveClientOpts env repo = .ok ())
    (h8 : env.httpGetBytes (urlString u) = .ok res)
    (h9 : env.readAll res = .ok chartBytes) :
    sync env sto repo chart fs links =
      syncPersist env sto chart cv chartBytes (urlString u) fs links := by
  simp only [sync, h1, h2, h3, h4, h5, h6, h7, h8, h9]

/-! ## Concrete fixtures used by witnesses and counterexamples -/

/-- A concrete storage configuration. -/
def stoW : Storage := ⟨"http://storage.local"⟩

/-- A concrete referenced HelmRepository with a published index artifact. -/
def repoW : HelmRepo :=
  ⟨"podinfo-repo", "default", none, ⟨["helmrepository", "default", "podinfo-repo"], "index.yaml"⟩⟩

/-- A concrete HelmChart under reconciliation. -/
def chartW : HelmChart :=
  ⟨"HelmChart", "default", "podinfo-chart", "podinfo", "1.0.0", 5,
    ⟨none, [⟨.ready, .isUnknown, InitializingReason, ""⟩]⟩⟩

/-- A concrete chart version resolved from the index. -/
def cvW : ChartVersion := ⟨"podinfo", "1.0.0", ["http://charts.local/podinfo-1.0.0.tgz"]⟩

/-- A concrete file system holding the repository index file. -/
def fsW : FS := [(repoW.artifactPath, "indexbytes")]

/-- A concrete environment in which every external call and every storage
operation succeeds. -/
def envW : SyncEnv :=
  { parseIndex := fun _ => .ok ⟨[]⟩
    indexGet := fun _ _ _ => .ok cvW
    parseURL := fun r => .ok ⟨"http", r.drop 7⟩
    getterByScheme := fun _ => .ok ()
    getSecret := fun _ _ => .error "secret not found"
    clientOptionsFromSecret := fun _ => .ok ()
    httpGetBytes := fun _ => .ok "chartdata"
    readAll := fun s => .ok s
    mkdirOk := fun _ => true
    lockOk := fun _ => true
    writeOk := fun _ => true
    symlinkOk := fun _ => true }

/-- The artifact path the successful `envW` run persists to:
`HelmChart/default/podinfo-chart/podinfo-1.0.0-chartdata.tgz` (the checksum
of the fetched bytes qualifies the file name). -/
def pW : StoragePath :=
  ⟨["HelmChart", "default", "podinfo-chart"], "podinfo-1.0.0-chartdata.tgz"⟩

end SourceController

namespace SourceController

example : (sync envW stoW repoW chartW fsW []).err = none := by decide

example : (sync envW stoW repoW chartW fsW []).trace =
    [.httpGet "http://charts.local/podinfo-1.0.0.tgz", .mkdir pW, .lockAcq pW,
      .fileWrite pW, .symlink pW "podinfo-latest.tgz", .unlock pW] := by decide

example : lockSection (sync envW stoW repoW chartW fsW []).trace =
    [.fileWrite pW, .symlink pW "podinfo-latest.tgz"] := by decide

end SourceController

namespace SourceController

/-! ## Claim C3 — garbage collection -/

/-- C3: for a resource with several revision files written under its artifact
directory, after `removeAllButCurrent current`, exactly the file backing the
current artifact remains in that directory (the current file is kept, every
same-directory sibling is gone), directories of other resources are left
untouched, and re-running the collection when the siblings are already absent
is a no-op (removal of an already-absent sibling is not an error: the
operation is total and idempotent). -/
theorem c3_removeAllButCurrent_correct (fs : FS) (cur : StoragePath) (v : String)
    (h : fsLookup fs cur = some v) :
    fsLookup (removeAllButCurrent fs cur) cur = some v ∧
    (∀ p : StoragePath, p.dir = cur.dir → p ≠ cur →
      fsLookup (removeAllButCurrent fs cur) p = none) ∧
    (∀ p : StoragePath, p.dir ≠ cur.dir →
      fsLookup (removeAllButCurrent fs cur) p = fsLookup fs p) ∧
    removeAllButCurrent (removeAllButCurrent fs cur) cur = removeAllButCurrent fs cur := by
  refine ⟨?_, ?_, ?_, ?_⟩
  · rw [fsLookup_removeAllButCurrent_current, h]
  · exact fun p hd hn => fsLookup_removeAllButCurrent_sibling fs cur p hd hn
  · exact fun p hd => fsLookup_removeAllButCurrent_other fs cur p hd
  · exact removeAllButCurrent_idem fs cur

/-- The revision files of the garbage-collection scenario of
`TestHelmRepositoryReconciler_reconcileStorage`: revisions a, b, c in one
resource directory plus a file of a sibling resource. -/
def gcDir : List String := ["helmrepository", "default", "gc-obj"]

def gcPathA : StoragePath := ⟨gcDir, "a.txt"⟩
def gcPathB : StoragePath := ⟨gcDir, "b.txt"⟩
def gcPathC : StoragePath := ⟨gcDir, "c.txt"⟩
def gcPathOther : StoragePath := ⟨["helmrepository", "default", "other-obj"], "z.txt"⟩

def gcFs : FS := [(gcPathA, "a"), (gcPathB, "b"), (gcPathC, "c"), (gcPathOther, "z")]

/-- Witness for C3 at the concrete three-revision scenario: after collecting
with current `c.txt`, `c.txt` keeps its contents, `a.txt` and `b.txt` are
gone, the sibling resource file is untouched, and collecting again changes
nothing. -/
theorem c3_removeAllButCurrent_witness :
    fsLookup (removeAllButCurrent gcFs gcPathC) gcPathC = some "c" ∧
    fsLookup (removeAllButCurrent gcFs gcPathC) gcPathA = none ∧
    fsLookup (removeAllButCurrent gcFs gcPathC) gcPathB = none ∧
    fsLookup (removeAllButCurrent gcFs gcPathC) gcPathOther = fsLookup gcFs gcPathOther ∧
    removeAllButCurrent (removeAllButCurrent gcFs gcPathC) gcPathC =
      removeAllButCurrent gcFs gcPathC := by
  have h := c3_removeAllButCurrent_correct gcFs gcPathC "c" (by decide)
  exact ⟨h.1, h.2.1 gcPathA (by decide) (by decide), h.2.1 gcPathB (by decide) (by decide),
    h.2.2.1 gcPathOther (by decide), h.2.2.2⟩

end SourceController

namespace SourceController

/-! ## Claim C4 — lock coverage of the persistence sequence -/

/-- Counterexample to C4 as stated: in a fully successful concrete `sync`
run, the ensure-directory step (`MkdirAll`, `helmchart_controller.go` line
217) executes before the lock is acquired (line 224), so it is a step of the
ensure-directory → atomic-write → symlink sequence that runs outside the
per-artifact lock. -/
theorem c4_lock_counterexample :
    (sync envW stoW repoW chartW fsW []).err = none ∧
    Ev.mkdir pW ∈ (sync envW stoW repoW chartW fsW []).trace ∧
    Ev.mkdir pW ∉ lockSection (sync envW stoW repoW chartW fsW []).trace := by
  decide

/-- C4 amended: the per-artifact exclusive lock is held across the
atomic-write → symlink part of the persistence sequence — in every `sync`
run that reaches persistence with all storage steps succeeding, the write
and symlink events lie strictly between lock acquisition and release — while
the ensure-directory step executes before the lock is acquired, outside it. -/
theorem c4_lock_covers_write_and_symlink (env : SyncEnv) (sto : Storage) (repo : HelmRepo)
    (chart : HelmChart) (fs : FS) (links : Links) (ib : String) (idx : IndexFile)
    (cv : ChartVersion) (ref : String) (rest : List String) (u : URLRef)
    (res chartBytes : String) (p : StoragePath)
    (h1 : fsLookup fs repo.artifactPath = some ib)
    (h2 : env.parseIndex ib = .ok idx)
    (h3 : env.indexGet idx chart.specName chart.specVersion = .ok cv)
    (h4 : cv.urls = ref :: rest)
    (h5 : env.parseURL ref = .ok u)
    (h6 : env.getterByScheme u.scheme = .ok ())
    (h7 : resolveClientOpts env repo = .ok ())
    (h8 : env.httpGetBytes (urlString u) = .ok res)
    (h9 : env.readAll res = .ok chartBytes)
    (hp : p = (ArtifactFor sto chart.kind chart.ns chart.name
      (chartArtifactFileName cv chartBytes) cv.version).path)
    (hm : env.mkdirOk p = true) (hl : env.lockOk p = true)
    (hw : env.writeOk p = true) (hs : env.symlinkOk p = true) :
    (sync env sto repo chart fs links).err = none ∧
    (sync env sto repo chart fs links).trace =
      [.httpGet (urlString u), .mkdir p, .lockAcq p, .fileWrite p,
        .symlink p (cv.name ++ "-latest.tgz"), .unlock p] ∧
    Ev.fileWrite p ∈ lockSection (sync env sto repo chart fs links).trace ∧
    Ev.symlink p (cv.name ++ "-latest.tgz") ∈
      lockSection (sync env sto repo chart fs links).trace ∧
    Ev.mkdir p ∉ lockSection (sync env sto repo chart fs links).trace := by
  subst hp
  rw [sync_stage env sto repo chart fs links ib idx cv ref rest u res chartBytes
    h1 h2 h3 h4 h5 h6 h7 h8 h9]
  simp only [syncPersist, hm, hl, hw, hs, if_true]
  simp [lockSection, isLockAcq, isUnlock, List.dropWhile, List.takeWhile]

/-- Witness for the amended C4 at the concrete successful run. -/
theorem c4_lock_witness :
    (sync envW stoW repoW chartW fsW []).err = none ∧
    Ev.fileWrite pW ∈ lockSection (sync envW stoW repoW chartW fsW []).trace ∧
    Ev.symlink pW "podinfo-latest.tgz" ∈ lockSection (sync envW stoW repoW chartW fsW []).trace := by
  have h := c4_lock_covers_write_and_symlink envW stoW repoW chartW fsW [] "indexbytes"
    ⟨[]⟩ cvW "http://charts.local/podinfo-1.0.0.tgz" [] ⟨"http", "charts.local/podinfo-1.0.0.tgz"⟩
    "chartdata" "chartdata" pW rfl rfl rfl rfl rfl rfl rfl rfl rfl (by decide) rfl rfl rfl rfl
  exact ⟨h.1, h.2.2.1, h.2.2.2.1⟩

end SourceController

namespace SourceController

/-! ## Claim C1 — persistence failures surface an error and leave status intact -/

/-- C1: whenever a reconciliation pass reaches the persistence sequence and
any of its steps (ensure directory, lock, atomic write, symlink publication)
fails, `sync` returns a non-nil error, replaces the condition set with a
single Ready=False failure condition whose reason is the fetch-failure
(`ChartPullFailed`) or storage-operation (`StorageOperationFailed`) variant,
and leaves the previous `status.currentArtifact` record unchanged — a
partially completed persistence is never reflected in status. -/
theorem c1_persistence_failure_preserves_status (env : SyncEnv) (sto : Storage)
    (repo : HelmRepo) (chart : HelmChart) (fs : FS) (links : Links) (ib : String)
    (idx : IndexFile) (cv : ChartVersion) (ref : String) (rest : List String)
    (u : URLRef) (res chartBytes : String) (p : StoragePath)
    (h1 : fsLookup fs repo.artifactPath = some ib)
    (h2 : env.parseIndex ib = .ok idx)
    (h3 : env.indexGet idx chart.specName chart.specVersion = .ok cv)
    (h4 : cv.urls = ref :: rest)
    (h5 : env.parseURL ref = .ok u)
    (h6 : env.getterByScheme u.scheme = .ok ())
    (h7 : resolveClientOpts env repo = .ok ())
    (h8 : env.httpGetBytes (urlString u) = .ok res)
    (h9 : env.readAll res = .ok chartBytes)
    (hp : p = (ArtifactFor sto chart.kind chart.ns chart.name
      (chartArtifactFileName cv chartBytes) cv.version).path)
    (hfail : ¬(env.mkdirOk p = true ∧ env.lockOk p = true ∧ env.writeOk p = true ∧
      env.symlinkOk p = true)) :
    (sync env sto repo chart fs links).err.isSome = true ∧
    (sync env sto repo chart fs links).chart.status.artifact = chart.status.artifact ∧
    ∃ r m, (sync env sto repo chart fs links).chart.status.conditions =
        [⟨.ready, .isFalse, r, m⟩] ∧
      (r = ChartPullFailedReason ∨ r = StorageOperationFailedReason) := by
  subst hp
  rw [sync_stage env sto repo chart fs links ib idx cv ref rest u res chartBytes
    h1 h2 h3 h4 h5 h6 h7 h8 h9]
  simp only [syncPersist]
  cases hmv : env.mkdirOk (ArtifactFor sto chart.kind chart.ns chart.name
      (chartArtifactFileName cv chartBytes) cv.version).path with
  | false =>
    simp only [hmv, Bool.false_eq_true, if_false]
    exact ⟨rfl, rfl, ChartPullFailedReason, "unable to create chart directory", rfl, Or.inl rfl⟩
  | true =>
    simp only [hmv, if_true]
    cases hlv : env.lockOk (ArtifactFor sto chart.kind chart.ns chart.name
        (chartArtifactFileName cv chartBytes) cv.version).path with
    | false =>
      simp only [hlv, Bool.false_eq_true, if_false]
      exact ⟨rfl, rfl, ChartPullFailedReason, "unable to acquire lock", rfl, Or.inl rfl⟩
    | true =>
      simp only [hlv, if_true]
      cases hwv : env.writeOk (ArtifactFor sto chart.kind chart.ns chart.name
          (chartArtifactFileName cv chartBytes) cv.version).path with
      | false =>
        simp only [hwv, Bool.false_eq_true, if_false]
        exact ⟨rfl, rfl, ChartPullFailedReason, "unable to write chart file", rfl, Or.inl rfl⟩
      | true =>
        simp only [hwv, if_true]
        cases hsv : env.symlinkOk (ArtifactFor sto chart.kind chart.ns chart.name
            (chartArtifactFileName cv chartBytes) cv.version).path with
        | false =>
          simp only [hsv, Bool.false_eq_true, if_false]
          exact ⟨rfl, rfl, StorageOperationFailedReason,
            "storage error: unable to update symlink", rfl, Or.inr rfl⟩
        | true => exact absurd ⟨hmv, hlv, hwv, hsv⟩ hfail

/-- An environment identical to `envW` except that the symlink step fails. -/
def envSymlinkFail : SyncEnv := { envW with symlinkOk := fun _ => false }

/-- Witness for C1: with the symlink step failing, the concrete run errors,
keeps the (absent) previous artifact record, and reports the
storage-operation failure reason. -/
theorem c1_persistence_failure_witness :
    (sync envSymlinkFail stoW repoW chartW fsW []).err.isSome = true ∧
    (sync envSymlinkFail stoW repoW chartW fsW []).chart.status.artifact =
      chartW.status.artifact ∧
    ∃ r m, (sync envSymlinkFail stoW repoW chartW fsW []).chart.status.conditions =
        [⟨.ready, .isFalse, r, m⟩] ∧
      (r = ChartPullFailedReason ∨ r = StorageOperationFailedReason) := by
  exact c1_persistence_failure_preserves_status envSymlinkFail stoW repoW chartW fsW []
    "indexbytes" ⟨[]⟩ cvW "http://charts.local/podinfo-1.0.0.tgz" []
    ⟨"http", "charts.local/podinfo-1.0.0.tgz"⟩ "chartdata" "chartdata" pW
    rfl rfl rfl rfl rfl rfl rfl rfl rfl (by decide) (by decide)

end SourceController

namespace SourceController

/-! ## Claim C10 — checksum-qualified artifact file names -/

/-- Distinct fetched bytes give distinct checksum-qualified file names for
the same chart name and version. -/
theorem chartArtifactFileName_inj (cv : ChartVersion) (b1 b2 : String) (h : b1 ≠ b2) :
    chartArtifactFileName cv b1 ≠ chartArtifactFileName cv b2 := by
  intro he
  apply h
  have hd := congrArg String.data he
  simp only [chartArtifactFileName, Checksum, String.data_append] at hd
  exact String.ext (List.append_cancel_left (List.append_cancel_right hd))

/-- C10: a successful chart pull records an artifact whose file name is
`<chartName>-<chartVersion>-<checksum>.tgz` with the checksum taken from the
fetched bytes, and writes the bytes at exactly that path; consequently two
pulls of the same chart name and version yielding different bytes use
different file names, and writing one of them leaves the file backing the
other untouched. -/
theorem c10_checksum_qualified_filename (env : SyncEnv) (sto : Storage)
    (repo : HelmRepo) (chart : HelmChart) (fs : FS) (links : Links) (ib : String)
    (idx : IndexFile) (cv : ChartVersion) (ref : String) (rest : List String)
    (u : URLRef) (res chartBytes : String) (p : StoragePath)
    (h1 : fsLookup fs repo.artifactPath = some ib)
    (h2 : env.parseIndex ib = .ok idx)
    (h3 : env.indexGet idx chart.specName chart.specVersion = .ok cv)
    (h4 : cv.urls = ref :: rest)
    (h5 : env.parseURL ref = .ok u)
    (h6 : env.getterByScheme u.scheme = .ok ())
    (h7 : resolveClientOpts env repo = .ok ())
    (h8 : env.httpGetBytes (urlString u) = .ok res)
    (h9 : env.readAll res = .ok chartBytes)
    (hp : p = (ArtifactFor sto chart.kind chart.ns chart.name
      (chartArtifactFileName cv chartBytes) cv.version).path)
    (hm : env.mkdirOk p = true) (hl : env.lockOk p = true)
    (hw : env.writeOk p = true) (hs : env.symlinkOk p = true) :
    chartArtifactFileName cv chartBytes =
      cv.name ++ "-" ++ cv.version ++ "-" ++ Checksum chartBytes ++ ".tgz" ∧
    (sync env sto repo chart fs links).chart.status.artifact =
      some (ArtifactFor sto chart.kind chart.ns chart.name
        (chartArtifactFileName cv chartBytes) cv.version) ∧
    (sync env sto repo chart fs links).fs = fsWrite fs p chartBytes ∧
    (∀ b1 b2 : String, b1 ≠ b2 →
      chartArtifactFileName cv b1 ≠ chartArtifactFileName cv b2) ∧
    (∀ (fs2 : FS) (b1 b2 : String), b1 ≠ b2 →
      fsLookup (fsWrite fs2 ⟨p.dir, chartArtifactFileName cv b2⟩ b2)
          ⟨p.dir, chartArtifactFileName cv b1⟩ =
        fsLookup fs2 ⟨p.dir, chartArtifactFileName cv b1⟩) := by
  subst hp
  rw [sync_stage env sto repo chart fs links ib idx cv ref rest u res chartBytes
    h1 h2 h3 h4 h5 h6 h7 h8 h9]
  simp only [syncPersist, hm, hl, hw, hs, if_true]
  refine ⟨by trivial, by simp [HelmChartReady], by trivial, chartArtifactFileName_inj cv, ?_⟩
  intro fs2 b1 b2 hne
  refine fsLookup_fsWrite_ne fs2 _ _ b2 ?_
  intro he
  exact chartArtifactFileName_inj cv b1 b2 hne (congrArg StoragePath.file he)

/-- Witness for C10 at the concrete successful run: the recorded file name
is the checksum-qualified one, and pulls of distinct bytes use distinct
names. -/
theorem c10_checksum_qualified_witness :
    (sync envW stoW repoW chartW fsW []).chart.status.artifact =
      some (ArtifactFor stoW "HelmChart" "default" "podinfo-chart"
        "podinfo-1.0.0-chartdata.tgz" "1.0.0") ∧
    chartArtifactFileName cvW "bytes1" ≠ chartArtifactFileName cvW "bytes2" := by
  have h := c10_checksum_qualified_filename envW stoW repoW chartW fsW []
    "indexbytes" ⟨[]⟩ cvW "http://charts.local/podinfo-1.0.0.tgz" []
    ⟨"http", "charts.local/podinfo-1.0.0.tgz"⟩ "chartdata" "chartdata" pW
    rfl rfl rfl rfl rfl rfl rfl rfl rfl (by decide) rfl rfl rfl rfl
  exact ⟨h.2.1, h.2.2.2.1 "bytes1" "bytes2" (by decide)⟩

end SourceController

namespace SourceController

/-! ## Claim C9 — structurally empty index fails fast, writes nothing -/

/-- C9: a fetched index with no resolvable chart entry (`index.Get` fails),
or with a resolved entry that has no downloadable URL, makes the pass return
an error before any storage step runs — the file system, the links and the
recorded artifact are untouched and the trace is empty; likewise the
HelmRepository persistence step errors without writing when handed an
empty index. -/
theorem c9_empty_index_fails_without_write :
    (∀ (env : SyncEnv) (sto : Storage) (repo : HelmRepo) (chart : HelmChart) (fs : FS)
      (links : Links) (ib : String) (idx : IndexFile) (ie : IndexGetErr),
      fsLookup fs repo.artifactPath = some ib → env.parseIndex ib = .ok idx →
      env.indexGet idx chart.specName chart.specVersion = .error ie →
      (sync env sto repo chart fs links).err.isSome = true ∧
      (sync env sto repo chart fs links).fs = fs ∧
      (sync env sto repo chart fs links).links = links ∧
      (sync env sto repo chart fs links).trace = [] ∧
      (sync env sto repo chart fs links).chart.status.artifact = chart.status.artifact) ∧
    (∀ (env : SyncEnv) (sto : Storage) (repo : HelmRepo) (chart : HelmChart) (fs : FS)
      (links : Links) (ib : String) (idx : IndexFile) (cv : ChartVersion),
      fsLookup fs repo.artifactPath = some ib → env.parseIndex ib = .ok idx →
      env.indexGet idx chart.specName chart.specVersion = .ok cv → cv.urls = [] →
      (sync env sto repo chart fs links).err.isSome = true ∧
      (sync env sto repo chart fs links).fs = fs ∧
      (sync env sto repo chart fs links).links = links ∧
      (sync env sto repo chart fs links).trace = [] ∧
      (sync env sto repo chart fs links).chart.status.artifact = chart.status.artifact) ∧
    (∀ (sto : Storage) (obj : HelmRepository) (artifact : Artifact) (fs : FS)
      (links : Links), obj.status.artifact = none →
      (reconcileArtifact sto obj artifact none fs links).err.isSome = true ∧
      (reconcileArtifact sto obj artifact none fs links).fs = fs ∧
      (reconcileArtifact sto obj artifact none fs links).links = links ∧
      (reconcileArtifact sto obj artifact none fs links).obj = obj) := by
  refine ⟨?_, ?_, ?_⟩
  · intro env sto repo chart fs links ib idx ie h1 h2 h3
    simp only [sync, h1, h2, h3]
    exact ⟨by trivial, by trivial, by trivial, by trivial, by trivial⟩
  · intro env sto repo chart fs links ib idx cv h1 h2 h3 h4
    simp only [sync, h1, h2, h3, h4]
    exact ⟨by trivial, by trivial, by trivial, by trivial, by trivial⟩
  · intro sto obj artifact fs links hobj
    simp only [reconcileArtifact, hobj]
    exact ⟨by trivial, by trivial, by trivial, by trivial⟩

/-- An environment whose index lookup finds no chart entry. -/
def envNoEntry : SyncEnv := { envW with indexGet := fun _ _ _ => .error .noChartName }

/-- A concrete HelmRepository with no recorded artifact. -/
def objEmptyW : HelmRepository :=
  ⟨"podinfo-repo", "default", "http://helm.local/repo", 7, none, ⟨none, "", []⟩⟩

/-- Witness for C9: the concrete run with an unresolvable chart entry errors
and leaves storage untouched, and the empty-index persistence step errors
without writing. -/
theorem c9_empty_index_witness :
    (sync envNoEntry stoW repoW chartW fsW []).err.isSome = true ∧
    (sync envNoEntry stoW repoW chartW fsW []).fs = fsW ∧
    (sync envNoEntry stoW repoW chartW fsW []).trace = [] ∧
    (reconcileArtifact stoW objEmptyW (ArtifactFor stoW "helmrepository" "default"
      "podinfo-repo" "index-r1.yaml" "r1") none fsW []).err.isSome = true ∧
    (reconcileArtifact stoW objEmptyW (ArtifactFor stoW "helmrepository" "default"
      "podinfo-repo" "index-r1.yaml" "r1") none fsW []).fs = fsW := by
  have ha := c9_empty_index_fails_without_write.1 envNoEntry stoW repoW chartW fsW []
    "indexbytes" ⟨[]⟩ .noChartName rfl rfl rfl
  have hb := c9_empty_index_fails_without_write.2.2 stoW objEmptyW
    (ArtifactFor stoW "helmrepository" "default" "podinfo-repo" "index-r1.yaml" "r1")
    fsW [] rfl
  exact ⟨ha.1, ha.2.1, ha.2.2.2.1, hb.1, hb.2.1⟩

end SourceController

namespace SourceController

/-! ## Claim C7 — transport error classification -/

/-- `markFetchFailed` makes the FetchFailed condition retrievable with the
given reason and message. -/
theorem getCondition_markFetchFailed (obj : HelmRepository) (r m : String) :
    getCondition (markFetchFailed obj r m).status.conditions .fetchFailed =
      some ⟨.fetchFailed, .isTrue, r, m⟩ :=
  getCondition_setCondition_self obj.status.conditions ⟨.fetchFailed, .isTrue, r, m⟩

/-- C7: a malformed remote URL or an unsupported scheme asserts FetchFailed
(with the invalid-URL reason, respectively the generic failure reason naming
the scheme), returns no error and a zero scheduling result — non-retryable
within the pass — whereas a transport failure during the index download
asserts FetchFailed and returns a non-nil error, the signal the runtime
retries with a bounded backoff delay. -/
theorem c7_transport_error_classification :
    (∀ (env : SourceEnv) (sto : Storage) (obj : HelmRepository) (e : String),
      resolveRepoOpts env obj = .ok () → env.parseURL obj.url = .error e →
      (reconcileSource env sto obj).err = none ∧
      (reconcileSource env sto obj).result = ⟨false, 0⟩ ∧
      (reconcileSource env sto obj).candidate = none ∧
      getCondition (reconcileSource env sto obj).obj.status.conditions .fetchFailed =
        some ⟨.fetchFailed, .isTrue, URLInvalidReason, e⟩) ∧
    (∀ (env : SourceEnv) (sto : Storage) (obj : HelmRepository) (u : URLRef),
      resolveRepoOpts env obj = .ok () → env.parseURL obj.url = .ok u →
      u.scheme ∉ env.supportedSchemes →
      (reconcileSource env sto obj).err = none ∧
      (reconcileSource env sto obj).result = ⟨false, 0⟩ ∧
      (reconcileSource env sto obj).candidate = none ∧
      getCondition (reconcileSource env sto obj).obj.status.conditions .fetchFailed =
        some ⟨.fetchFailed, .isTrue, FailedReason,
          "scheme " ++ u.scheme ++ " not supported"⟩) ∧
    (∀ (env : SourceEnv) (sto : Storage) (obj : HelmRepository) (u : URLRef) (e : String),
      resolveRepoOpts env obj = .ok () → env.parseURL obj.url = .ok u →
      u.scheme ∈ env.supportedSchemes → env.downloadIndex (urlString u) = .error e →
      (reconcileSource env sto obj).err = some e ∧
      (reconcileSource env sto obj).result = ⟨false, 0⟩ ∧
      (reconcileSource env sto obj).candidate = none ∧
      getCondition (reconcileSource env sto obj).obj.status.conditions .fetchFailed =
        some ⟨.fetchFailed, .isTrue, FailedReason, e⟩) := by
  refine ⟨?_, ?_, ?_⟩
  · intro env sto obj e hOpts hURL
    simp only [reconcileSource, hOpts, hURL]
    exact ⟨by trivial, by trivial, by trivial, getCondition_markFetchFailed obj URLInvalidReason e⟩
  · intro env sto obj u hOpts hURL hmem
    simp only [reconcileSource, hOpts, hURL, if_neg hmem]
    exact ⟨by trivial, by trivial, by trivial, getCondition_markFetchFailed obj FailedReason _⟩
  · intro env sto obj u e hOpts hURL hmem hDl
    simp only [reconcileSource, hOpts, hURL, if_pos hmem, hDl]
    exact ⟨by trivial, by trivial, by trivial, getCondition_markFetchFailed obj FailedReason e⟩

/-- A fetch environment for the HelmRepository reconciler in which the
download succeeds. -/
def srcEnvW : SourceEnv :=
  { parseURL := fun r => .ok ⟨"http", r.drop 7⟩
    supportedSchemes := ["http", "https"]
    getSecret := fun _ _ => .error "secrets non-existing not found"
    clientOptionsFromSecret := fun _ => .ok ()
    tlsConfigFromSecret := fun _ => .ok ()
    downloadIndex := fun _ => .ok ("r1", "indexdata") }

/-- A fetch environment whose URL parser rejects the remote URL. -/
def srcEnvBadURL : SourceEnv :=
  { srcEnvW with parseURL := fun _ => .error "first path segment in URL cannot contain colon" }

/-- A fetch environment that parses an unsupported ftp scheme. -/
def srcEnvFtp : SourceEnv :=
  { srcEnvW with parseURL := fun r => .ok ⟨"ftp", r⟩ }

/-- A fetch environment whose download fails with a network error. -/
def srcEnvNetErr : SourceEnv :=
  { srcEnvW with downloadIndex := fun _ => .error "connection refused" }

/-- Witness for C7 at concrete runs: the invalid URL and the unsupported
scheme give FetchFailed with no error and a zero result; the network failure
gives FetchFailed with a non-nil error. -/
theorem c7_transport_error_witness :
    (reconcileSource srcEnvBadURL stoW objEmptyW).err = none ∧
    (reconcileSource srcEnvBadURL stoW objEmptyW).result = ⟨false, 0⟩ ∧
    getCondition (reconcileSource srcEnvBadURL stoW objEmptyW).obj.status.conditions
        .fetchFailed =
      some ⟨.fetchFailed, .isTrue, URLInvalidReason,
        "first path segment in URL cannot contain colon"⟩ ∧
    (reconcileSource srcEnvFtp stoW objEmptyW).err = none ∧
    (reconcileSource srcEnvFtp stoW objEmptyW).result = ⟨false, 0⟩ ∧
    (reconcileSource srcEnvNetErr stoW objEmptyW).err = some "connection refused" := by
  have ha := c7_transport_error_classification.1 srcEnvBadURL stoW objEmptyW
    "first path segment in URL cannot contain colon" rfl rfl
  have hb := c7_transport_error_classification.2.1 srcEnvFtp stoW objEmptyW
    ⟨"ftp", "http://helm.local/repo"⟩ rfl rfl (by decide)
  have hc := c7_transport_error_classification.2.2 srcEnvNetErr stoW objEmptyW
    ⟨"http", "helm.local/repo"⟩ "connection refused" rfl rfl (by decide) rfl
  exact ⟨ha.1, ha.2.1, ha.2.2.2, hb.1, hb.2.1, hc.1⟩

end SourceController

namespace SourceController

/-! ## Claim C2 — recovery from a missing backing file -/

/-- A stale artifact record: its path has no backing file in `fsW`. -/
def aC2 : Artifact :=
  ⟨⟨["HelmChart", "default", "podinfo-chart"], "podinfo-0.9.0-old.tgz"⟩,
    "http://storage.local/HelmChart/default/podinfo-chart/podinfo-0.9.0-old.tgz",
    "0.9.0", "old", 0⟩

/-- A HelmChart whose status records `aC2` and has a non-empty condition set. -/
def chartC2 : HelmChart :=
  { chartW with status := ⟨some aC2, [⟨.ready, .isTrue, ChartPullSucceededReason, ""⟩]⟩ }

/-- A reconcile environment in which everything else succeeds. -/
def envC2 : ReconcileEnv := ⟨envW, .ok repoW⟩

/-- Counterexample to C2 as stated: a concrete HelmChart pass over a status
with a recorded artifact and no backing file never asserts
ArtifactUnavailable in any status it writes, and does not request a bare
immediate requeue — it resets status to Initializing and completes the pass
with a fresh fetch, scheduling the regular interval. -/
theorem c2_missing_artifact_counterexample :
    chartC2.status.artifact = some aC2 ∧
    fsLookup fsW aC2.path = none ∧
    (helmChartReconcile envC2 stoW chartC2 fsW []).result ≠ ⟨true, 0⟩ ∧
    ((helmChartReconcile envC2 stoW chartC2 fsW []).statusWrites.all
      fun s => (getCondition s.conditions .artifactUnavailable).isNone) = true := by
  decide

/-- C2 amended: when the recorded artifact has no backing file, the
HelmRepository storage step asserts ArtifactUnavailable, clears the stale
record and requests a bare immediate requeue with no error; the HelmChart
reconciler instead clears the stale record by resetting the whole status to
the initial Ready=Unknown/Initializing condition set — without an
ArtifactUnavailable condition — and continues the same pass. -/
theorem c2_missing_artifact_recovery :
    (∀ (sto : Storage) (obj : HelmRepository) (fs : FS) (a : Artifact),
      obj.status.artifact = some a → fsLookup fs a.path = none →
      (reconcileStorage sto obj fs).1.status.artifact = none ∧
      getCondition (reconcileStorage sto obj fs).1.status.conditions .artifactUnavailable =
        some ⟨.artifactUnavailable, .isTrue, NoArtifactReason,
          "No artifact for resource in storage"⟩ ∧
      (reconcileStorage sto obj fs).2.2.1 = ⟨true, 0⟩ ∧
      (reconcileStorage sto obj fs).2.2.2 = none) ∧
    (∀ (chart : HelmChart) (fs : FS) (a : Artifact),
      chart.status.artifact = some a → fsLookup fs a.path = none →
      shouldResetStatus chart fs = (true, initialChartStatus) ∧
      initialChartStatus.artifact = none ∧
      getCondition initialChartStatus.conditions .artifactUnavailable = none) := by
  refine ⟨?_, ?_⟩
  · intro sto obj fs a hA hEx
    have hgone : fsLookup (removeAllButCurrent fs a.path) a.path = none := by
      rw [fsLookup_removeAllButCurrent_current]; exact hEx
    simp only [reconcileStorage, hA, hgone, Option.isNone_none, if_true]
    refine ⟨by trivial, ?_, by trivial, by trivial⟩
    exact getCondition_setCondition_self obj.status.conditions
      ⟨.artifactUnavailable, .isTrue, NoArtifactReason, "No artifact for resource in storage"⟩
  · intro chart fs a hA hEx
    refine ⟨?_, rfl, by decide⟩
    simp [shouldResetStatus, hA, hEx]

/-- A HelmRepository whose status records `aC2` with no backing file. -/
def objStale : HelmRepository :=
  ⟨"podinfo-repo", "default", "http://helm.local/repo", 7, none,
    ⟨some aC2, "http://storage.local/x", []⟩⟩

/-- Witness for the amended C2: at concrete inputs, the HelmRepository
storage step clears the record, asserts ArtifactUnavailable and bare-requeues,
and the HelmChart reset step fires with the Initializing status. -/
theorem c2_missing_artifact_witness :
    (reconcileStorage stoW objStale []).1.status.artifact = none ∧
    getCondition (reconcileStorage stoW objStale []).1.status.conditions .artifactUnavailable =
      some ⟨.artifactUnavailable, .isTrue, NoArtifactReason,
        "No artifact for resource in storage"⟩ ∧
    (reconcileStorage stoW objStale []).2.2.1 = ⟨true, 0⟩ ∧
    shouldResetStatus chartC2 fsW = (true, initialChartStatus) := by
  have ha := c2_missing_artifact_recovery.1 stoW objStale [] aC2 rfl rfl
  have hb := c2_missing_artifact_recovery.2 chartC2 fsW aC2 rfl (by decide)
  exact ⟨ha.1, ha.2.1, ha.2.2.1, hb.1⟩

end SourceController

namespace SourceController

/-! ## Claim C6 — URL rewrite on hostname change -/

/-- C6: when the stored artifact file exists but its recorded URL differs
from what the current host configuration derives, the storage step rewrites
only the artifact URL: path, revision, checksum and timestamp are unchanged,
the backing file and the rest of the file system are untouched (given the
directory already holds only the current revision), the conditions are
unchanged, and the step continues the pass with a zero result and no error —
the storage step has no access to the fetcher, so no re-fetch can occur. -/
theorem c6_url_rewrite (sto : Storage) (obj : HelmRepository) (fs : FS) (a : Artifact)
    (bytes : String)
    (hA : obj.status.artifact = some a)
    (hEx : fsLookup fs a.path = some bytes)
    (hGC : removeAllButCurrent fs a.path = fs)
    (_hne : a.url ≠ artifactURL sto a.path) :
    (∃ a2 : Artifact,
      (reconcileStorage sto obj fs).1.status.artifact = some a2 ∧
      a2.url = artifactURL sto a.path ∧
      a2.path = a.path ∧ a2.revision = a.revision ∧ a2.checksum = a.checksum ∧
      a2.lastUpdateTime = a.lastUpdateTime) ∧
    (reconcileStorage sto obj fs).2.1 = fs ∧
    fsLookup (reconcileStorage sto obj fs).2.1 a.path = some bytes ∧
    (reconcileStorage sto obj fs).2.2.1 = ⟨false, 0⟩ ∧
    (reconcileStorage sto obj fs).2.2.2 = none ∧
    (reconcileStorage sto obj fs).1.status.conditions = obj.status.conditions ∧
    (reconcileStorage sto obj fs).1.status.url = obj.status.url := by
  simp only [reconcileStorage, hA, hGC, hEx, Option.isNone_some, Bool.false_eq_true, if_false]
  exact ⟨⟨{ a with url := artifactURL sto a.path }, by trivial, by trivial, by trivial,
    by trivial, by trivial, by trivial⟩, by trivial, by trivial, by trivial, by trivial,
    by trivial, by trivial⟩

/-- The hostname-rewrite scenario of the storage test: a stored artifact
whose URL predates a hostname change. -/
def aHost : Artifact :=
  ⟨⟨["helmrepository", "default", "podinfo-repo"], "hostname.txt"⟩,
    "http://outdated.example/helmrepository/default/podinfo-repo/hostname.txt",
    "f", "3b9c358f", 0⟩

def fsHost : FS := [(aHost.path, "file")]

def objHost : HelmRepository :=
  ⟨"podinfo-repo", "default", "http://helm.local/repo", 7, none, ⟨some aHost, "", []⟩⟩

/-- Witness for C6 at the concrete hostname-change scenario. -/
theorem c6_url_rewrite_witness :
    (∃ a2 : Artifact,
      (reconcileStorage stoW objHost fsHost).1.status.artifact = some a2 ∧
      a2.url = artifactURL stoW aHost.path ∧
      a2.checksum = aHost.checksum ∧ a2.revision = aHost.revision) ∧
    (reconcileStorage stoW objHost fsHost).2.1 = fsHost ∧
    (reconcileStorage stoW objHost fsHost).2.2.2 = none := by
  have h := c6_url_rewrite stoW objHost fsHost aHost "file" rfl (by decide) (by decide)
    (by decide)
  obtain ⟨⟨a2, h1, h2, h3, h4, h5, h6⟩, hfs, hlk, hres, herr, hconds, hurl⟩ := h
  exact ⟨⟨a2, h1, h2, h5, h4⟩, hfs, herr⟩

end SourceController

namespace SourceController

/-! ## Claim C5 — idempotent second pass -/

/-- In the steady state — artifact recorded, backing file present, directory
already collected, URL matching the current hostname — the storage step is
the identity: same object, same file system, zero result, no error. -/
theorem reconcileStorage_steady (sto : Storage) (obj : HelmRepository) (fs : FS)
    (a : Artifact) (bytes : String)
    (hA : obj.status.artifact = some a)
    (hEx : fsLookup fs a.path = some bytes)
    (hGC : removeAllButCurrent fs a.path = fs)
    (hURL : a.url = artifactURL sto a.path) :
    reconcileStorage sto obj fs = (obj, fs, ⟨false, 0⟩, none) := by
  simp only [reconcileStorage, hA, hGC, hEx, Option.isNone_some, Bool.false_eq_true, if_false]
  rw [← hURL]
  show ({ obj with status := { obj.status with artifact := some a } }, fs,
    (⟨false, 0⟩ : CtrlResult), (none : Option String)) = (obj, fs, ⟨false, 0⟩, none)
  rw [← hA]

end SourceController

namespace SourceController

/-- C5: reconciling again with unchanged remote content (candidate checksum
equal to the recorded one) and unchanged hostname performs no file-system or
symlink writes, leaves `status.currentArtifact` identical, reaffirms Ready
naming the candidate revision, returns no error and proceeds directly to
scheduling the regular interval. -/
theorem c5_second_pass_idempotent (env : SourceEnv) (sto : Storage) (obj : HelmRepository)
    (fs : FS) (links : Links) (a : Artifact) (bytes0 : String) (u : URLRef)
    (rev bytes : String)
    (hA : obj.status.artifact = some a)
    (hEx : fsLookup fs a.path = some bytes0)
    (hGC : removeAllButCurrent fs a.path = fs)
    (hURL : a.url = artifactURL sto a.path)
    (hOpts : resolveRepoOpts env obj = .ok ())
    (hPU : env.parseURL obj.url = .ok u)
    (hSch : u.scheme ∈ env.supportedSchemes)
    (hDl : env.downloadIndex (urlString u) = .ok (rev, bytes))
    (hSum : Checksum bytes = a.checksum) :
    (helmRepoReconcile env sto obj fs links).fs = fs ∧
    (helmRepoReconcile env sto obj fs links).links = links ∧
    (helmRepoReconcile env sto obj fs links).obj.status.artifact = some a ∧
    getCondition (helmRepoReconcile env sto obj fs links).obj.status.conditions .ready =
      some ⟨.ready, .isTrue, SucceededReason, "Stored artifact for revision " ++ rev⟩ ∧
    (helmRepoReconcile env sto obj fs links).result = ⟨false, obj.interval⟩ ∧
    (helmRepoReconcile env sto obj fs links).err = none := by
  have hst := reconcileStorage_steady sto obj fs a bytes0 hA hEx hGC hURL
  simp only [helmRepoReconcile, hst, reconcileSource, hOpts, hPU, if_pos hSch, hDl,
    reconcileArtifact, hA, hSum]
  simp only [ne_eq, decide_not, Option.isSome_none, Bool.or_false, Bool.false_eq_true,
    if_false, decide_eq_true_eq]
  simp [reconcileArtifact, hA, NewArtifactFor, ArtifactFor]
  exact getCondition_setCondition_self _ _

/-- The steady-state artifact of the second-pass scenario: backing file
present, URL derived from the current hostname, checksum of the remote
index content. -/
def aSteady : Artifact :=
  ⟨⟨["helmrepository", "default", "podinfo-repo"], "index-r1.yaml"⟩,
    artifactURL stoW ⟨["helmrepository", "default", "podinfo-repo"], "index-r1.yaml"⟩,
    "r1", "indexdata", 0⟩

def fsSteady : FS := [(aSteady.path, "indexdata")]

def objSteady : HelmRepository :=
  ⟨"podinfo-repo", "default", "http://helm.local/repo", 7, none,
    ⟨some aSteady, "", [⟨.ready, .isTrue, SucceededReason, ""⟩]⟩⟩

/-- Witness for C5: the concrete second pass with identical remote content
writes nothing, keeps the artifact record identical and reaffirms Ready. -/
theorem c5_second_pass_witness :
    (helmRepoReconcile srcEnvW stoW objSteady fsSteady []).fs = fsSteady ∧
    (helmRepoReconcile srcEnvW stoW objSteady fsSteady []).links = [] ∧
    (helmRepoReconcile srcEnvW stoW objSteady fsSteady []).obj.status.artifact = some aSteady ∧
    (helmRepoReconcile srcEnvW stoW objSteady fsSteady []).result = ⟨false, 7⟩ ∧
    (helmRepoReconcile srcEnvW stoW objSteady fsSteady []).err = none := by
  have h := c5_second_pass_idempotent srcEnvW stoW objSteady fsSteady [] aSteady
    "indexdata" ⟨"http", "helm.local/repo"⟩ "r1" "indexdata"
    rfl (by decide) (by decide) rfl rfl rfl (by decide) rfl rfl
  exact ⟨h.1, h.2.1, h.2.2.1, h.2.2.2.2.1, h.2.2.2.2.2⟩

end SourceController

namespace SourceController

/-! ## Claim C8 — credential resolution failures -/

/-- A fetch environment whose referenced secret resolves but whose CA
material cannot be turned into a TLS configuration. -/
def srcEnvBadCA : SourceEnv :=
  { srcEnvW with
    getSecret := fun _ _ => .ok [("caFile", "invalid")]
    tlsConfigFromSecret := fun _ => .error "failed to append certificates from file" }

/-- A HelmRepository referencing the invalid-CA secret. -/
def objBadCA : HelmRepository :=
  ⟨"podinfo-repo", "default", "http://helm.local/repo", 7, some "invalid-ca", ⟨none, "", []⟩⟩

/-- Counterexample to C8 as stated: with invalid CA material the concrete
fetch step does fail with a non-nil error and FetchFailed=True, but the
condition reason is the generic failure reason — the same one used for
transport failures such as an unsupported scheme — not an
authentication-distinguishing one. -/
theorem c8_invalid_ca_counterexample :
    (reconcileSource srcEnvBadCA stoW objBadCA).err.isSome = true ∧
    getCondition (reconcileSource srcEnvBadCA stoW objBadCA).obj.status.conditions
        .fetchFailed =
      some ⟨.fetchFailed, .isTrue, FailedReason,
        "failed to create TLS client config: failed to append certificates from file"⟩ ∧
    FailedReason ≠ AuthenticationFailedReason ∧
    getCondition (reconcileSource srcEnvFtp stoW objEmptyW).obj.status.conditions
        .fetchFailed =
      some ⟨.fetchFailed, .isTrue, FailedReason, "scheme ftp not supported"⟩ := by
  decide

/-- C8 amended: a missing or malformed credential secret fails the pass with
a non-nil error and a FetchFailed assertion carrying the
authentication-distinguishing reason, stops before the network fetch and
writes no artifact — in both reconcilers; invalid CA material likewise fails
the pass before the fetch with a non-nil error, but in the HelmRepository
reconciler its FetchFailed condition carries the generic failure reason
rather than an authentication-distinguishing one. -/
theorem c8_credential_failure_stops_pass :
    (∀ (env : SyncEnv) (sto : Storage) (repo : HelmRepo) (chart : HelmChart) (fs : FS)
      (links : Links) (ib : String) (idx : IndexFile) (cv : ChartVersion) (ref : String)
      (rest : List String) (u : URLRef) (msg : String),
      fsLookup fs repo.artifactPath = some ib → env.parseIndex ib = .ok idx →
      env.indexGet idx chart.specName chart.specVersion = .ok cv →
      cv.urls = ref :: rest → env.parseURL ref = .ok u →
      env.getterByScheme u.scheme = .ok () →
      resolveClientOpts env repo = .error msg →
      (sync env sto repo chart fs links).err = some msg ∧
      (sync env sto repo chart fs links).chart.status.conditions =
        [⟨.ready, .isFalse, AuthenticationFailedReason, msg⟩] ∧
      (sync env sto repo chart fs links).fs = fs ∧
      (sync env sto repo chart fs links).links = links ∧
      (sync env sto repo chart fs links).trace = [] ∧
      (sync env sto repo chart fs links).chart.status.artifact = chart.status.artifact) ∧
    (∀ (env : SourceEnv) (sto : Storage) (obj : HelmRepository) (fs : FS) (links : Links)
      (a : Artifact) (bytes0 s e : String),
      obj.status.artifact = some a → fsLookup fs a.path = some bytes0 →
      removeAllButCurrent fs a.path = fs → a.url = artifactURL sto a.path →
      obj.secretRef = some s → env.getSecret obj.ns s = .error e →
      (helmRepoReconcile env sto obj fs links).err = some e ∧
      (helmRepoReconcile env sto obj fs links).fs = fs ∧
      (helmRepoReconcile env sto obj fs links).links = links ∧
      (helmRepoReconcile env sto obj fs links).obj.status.artifact = some a ∧
      getCondition (helmRepoReconcile env sto obj fs links).obj.status.conditions
          .fetchFailed =
        some ⟨.fetchFailed, .isTrue, AuthenticationFailedReason, e⟩) ∧
    (∀ (env : SourceEnv) (obj : HelmRepository) (s e : String),
      obj.secretRef = some s → env.getSecret obj.ns s = .error e →
      resolveRepoOpts env obj = .error (AuthenticationFailedReason, e)) ∧
    (∀ (env : SourceEnv) (obj : HelmRepository) (s : String) (secret : Secret) (e : String),
      obj.secretRef = some s → env.getSecret obj.ns s = .ok secret →
      env.clientOptionsFromSecret secret = .error e →
      resolveRepoOpts env obj = .error (AuthenticationFailedReason, e)) ∧
    (∀ (env : SourceEnv) (obj : HelmRepository) (s : String) (secret : Secret) (e : String),
      obj.secretRef = some s → env.getSecret obj.ns s = .ok secret →
      env.clientOptionsFromSecret secret = .ok () →
      env.tlsConfigFromSecret secret = .error e →
      resolveRepoOpts env obj = .error (FailedReason,
        "failed to create TLS client config: " ++ e)) := by
  refine ⟨?_, ?_, ?_, ?_, ?_⟩
  · intro env sto repo chart fs links ib idx cv ref rest u msg h1 h2 h3 h4 h5 h6 hRes
    simp only [sync, h1, h2, h3, h4, h5, h6, hRes]
    exact ⟨by trivial, by trivial, by trivial, by trivial, by trivial, by trivial⟩
  · intro env sto obj fs links a bytes0 s e hA hEx hGC hURL hSec hGet
    have hOpts : resolveRepoOpts env obj = .error (AuthenticationFailedReason, e) := by
      simp only [resolveRepoOpts, hSec, hGet]
    have hst := reconcileStorage_steady sto obj fs a bytes0 hA hEx hGC hURL
    simp only [helmRepoReconcile, hst, reconcileSource, hOpts]
    simp only [Option.isSome_none, Bool.or_false, Bool.false_eq_true, if_false]
    refine ⟨by trivial, by trivial, by trivial, ?_, ?_⟩
    · exact hA
    · exact getCondition_markFetchFailed obj AuthenticationFailedReason e
  · intro env obj s e hSec hGet
    simp only [resolveRepoOpts, hSec, hGet]
  · intro env obj s secret e hSec hGet hCo
    simp only [resolveRepoOpts, hSec, hGet, hCo]
  · intro env obj s secret e hSec hGet hCo hTls
    simp only [resolveRepoOpts, hSec, hGet, hCo, hTls]

/-- The chart-side repository reference with a missing credential secret. -/
def repoSec : HelmRepo := { repoW with secretRef := some "missing" }

/-- The steady-state HelmRepository referencing a non-existing secret. -/
def objSteadySec : HelmRepository := { objSteady with secretRef := some "non-existing" }

/-- Witness for the amended C8: at concrete inputs, a missing secret makes
both reconcilers fail with the authentication reason before any network or
storage activity. -/
theorem c8_credential_failure_witness :
    (sync envW stoW repoSec chartW fsW []).err =
      some "auth secret error: secret not found" ∧
    (sync envW stoW repoSec chartW fsW []).chart.status.conditions =
      [⟨.ready, .isFalse, AuthenticationFailedReason, "auth secret error: secret not found"⟩] ∧
    (sync envW stoW repoSec chartW fsW []).trace = [] ∧
    (sync envW stoW repoSec chartW fsW []).fs = fsW ∧
    (helmRepoReconcile srcEnvW stoW objSteadySec fsSteady []).err =
      some "secrets non-existing not found" ∧
    (helmRepoReconcile srcEnvW stoW objSteadySec fsSteady []).fs = fsSteady ∧
    getCondition (helmRepoReconcile srcEnvW stoW objSteadySec fsSteady []).obj.status.conditions
        .fetchFailed =
      some ⟨.fetchFailed, .isTrue, AuthenticationFailedReason,
        "secrets non-existing not found"⟩ := by
  have ha := c8_credential_failure_stops_pass.1 envW stoW repoSec chartW fsW []
    "indexbytes" ⟨[]⟩ cvW "http://charts.local/podinfo-1.0.0.tgz" []
    ⟨"http", "charts.local/podinfo-1.0.0.tgz"⟩ "auth secret error: secret not found"
    rfl rfl rfl rfl rfl rfl rfl
  have hb := c8_credential_failure_stops_pass.2.1 srcEnvW stoW objSteadySec fsSteady []
    aSteady "indexdata" "non-existing" "secrets non-existing not found"
    rfl (by decide) (by decide) rfl rfl rfl
  exact ⟨ha.1, ha.2.1, ha.2.2.2.2.1, ha.2.2.1, hb.1, hb.2.1, hb.2.2.2.2⟩

end SourceController
